import Mathlib

/-!
Shallow embedding of the VibeFlow extension core (src/extension.js and the
windowed variant embedded in src/README.md): the metrics accumulator, the
two flow scorers, the edit classifier, the history store and the nudge
logic, together with theorems checking the specification's claims.

Conventions: JS numbers arising in the score arithmetic are embedded as ℚ
(every value actually produced by the code is rational); timestamps in
milliseconds are ℤ; `Math.floor` is `Int.floor` on ℚ; `Math.round x` is
`⌊x + 1/2⌋` (round half toward +∞); `Math.random()` is an explicit
parameter `r : ℚ` with `0 ≤ r < 1` where it matters.
-/

namespace VibeFlow

/-- The mutable `metrics` object of `activate` (both variants share the
same field set). -/
structure Metrics where
  lastChangeTs : ℤ
  totalInsertions : ℕ
  totalDeletions : ℕ
  aiInsertions : ℕ
  aiRejections : ℕ
  undoCount : ℕ
  consecutiveLow : ℕ
deriving DecidableEq, Repr

/-- An entry of the `activity` array of the windowed variant:
`{ ts: now, size: inserted }`. -/
structure ActivityEntry where
  ts : ℤ
  size : ℕ
deriving DecidableEq, Repr

/-- An entry of the `history` array: `{ ts: now, flow: flow }`. -/
structure FlowSample where
  ts : ℤ
  flow : ℤ
deriving DecidableEq, Repr

/-- JS `Math.round` on the (rational) values produced by the scorers:
round half toward positive infinity. -/
def jsRound (q : ℚ) : ℤ := ⌊q + 1/2⌋

/-- JS `a || b` on numbers (used with integer timestamps): `0` is falsy. -/
def jsOr (a b : ℤ) : ℤ := if a = 0 then b else a

/-- `Math.floor(Math.random() * 10 - 5)` of the simplified scorer
(src/extension.js line 103), as a function of the random sample `r`. -/
def jitterSimple (r : ℚ) : ℤ := ⌊r * 10 - 5⌋

/-- `Math.floor(Math.random() * 6 - 3)` of the windowed scorer
(README variant line 126), as a function of the random sample `r`. -/
def jitterWindowed (r : ℚ) : ℤ := ⌊r * 6 - 3⌋

/-- `computeFlow` of src/extension.js (lines 89–106), with `Date.now()`
passed as `now` and `Math.random()` passed as `r`. -/
def computeFlowSimple (m : Metrics) (now : ℤ) (r : ℚ) : ℤ :=
  let total : ℚ := max 1 (m.totalInsertions : ℚ)
  let acceptRate : ℚ := min 1 ((m.aiInsertions : ℚ) / total)
  let rejectPenalty : ℚ :=
    min 1 ((m.aiRejections : ℚ) / ((m.aiInsertions : ℚ) + (m.aiRejections : ℚ) + 1))
  let undoRate : ℚ := min 1 ((m.undoCount : ℚ) / total)
  let idleSec : ℚ := ((now - m.lastChangeTs : ℤ) : ℚ) / 1000
  let idleFactor : ℚ := min 1 (idleSec / 300)
  let raw : ℚ := 30 + acceptRate * 50 - undoRate * 10 - idleFactor * 10
    - rejectPenalty * 5 + ((jitterSimple r : ℤ) : ℚ)
  max 0 (min 100 (jsRound raw))

/-- `a.size || 1` in the keystroke loop of the windowed scorer. -/
def sizeOrOne (n : ℕ) : ℕ := if n = 0 then 1 else n

/-- The `keystrokeScore` accumulation loop of the windowed `computeFlow`
(README variant lines 103–108), before the cap at 50. -/
def keystrokeSum (now : ℤ) (recent : List ActivityEntry) : ℚ :=
  recent.foldl
    (fun acc a =>
      acc + max 0 (1 - (((now - a.ts : ℤ) : ℚ) / 1000) / 60)
        * min ((sizeOrOne a.size : ℕ) : ℚ) 20)
    0

/-- Tail of the `gaps` array: successive timestamp differences after a
given previous entry. -/
def gapsFrom (prev : ActivityEntry) : List ActivityEntry → List ℤ
  | [] => []
  | b :: rest => (b.ts - prev.ts) :: gapsFrom b rest

/-- The `gaps` array of the windowed `computeFlow` (README variant line
111): `0` for index 0, `a.ts - recent[i-1].ts` afterwards; empty for an
empty `recent` list. -/
def gapsOf : List ActivityEntry → List ℤ
  | [] => []
  | a :: rest => 0 :: gapsFrom a rest

/-- `computeFlow` of the windowed variant (README variant lines 98–129),
with the `activity` array, `Date.now()` and `Math.random()` as explicit
arguments. -/
def computeFlowWindowed (m : Metrics) (activity : List ActivityEntry)
    (now : ℤ) (r : ℚ) : ℤ :=
  let recent := activity.filter (fun a => decide (now - a.ts < 60000))
  let keystrokeScore : ℚ := min (keystrokeSum now recent) 50
  let gaps := gapsOf recent
  let avgGap : ℚ :=
    if gaps.length = 0 then 0
    else ((gaps.foldl (fun a b => a + b) 0 : ℤ) : ℚ) / (gaps.length : ℚ)
  let rhythmBonus : ℚ := if avgGap < 10000 then max 0 (20 - avgGap / 1000) else 0
  let lastActivity : ℤ :=
    jsOr (match recent.getLast? with
          | some a => a.ts
          | none => 0)
      (jsOr m.lastChangeTs 0)
  let idleTime : ℤ := now - lastActivity
  let idleDecay : ℚ := min 50 ((idleTime : ℚ) / 1000)
  let total : ℚ := max 1 (m.totalInsertions : ℚ)
  let aiAcceptRate : ℚ := min 1 ((m.aiInsertions : ℚ) / total)
  let undoPenalty : ℚ := min 1 ((m.undoCount : ℚ) / total)
  let metricScore : ℚ := 30 + aiAcceptRate * 30 - undoPenalty * 10
  let rawFlow : ℚ := keystrokeScore + rhythmBonus - idleDecay + metricScore
    + ((jitterWindowed r : ℤ) : ℚ)
  max 0 (min 100 (jsRound rawFlow))

/-- The event tags produced by the classifier branch of the
`onDidChangeTextDocument` handler. -/
inductive EventType where
  | insert
  | aiAccept
  | delete
  | replace
  | aiReplace
deriving DecidableEq, Repr

/-- One iteration of the classifier loop of the `onDidChangeTextDocument`
handler (src/extension.js lines 167–201; identical classification logic in
the README variant lines 185–216): updates `metrics` and returns the type
of the logged event, if any.  The inserted text is a list of characters;
`inserted = change.text.length`, `removed = change.rangeLength`. -/
def applyChange (m : Metrics) (text : List Char) (rangeLength : ℕ) :
    Metrics × Option EventType :=
  let inserted := text.length
  let removed := rangeLength
  if 0 < inserted ∧ removed = 0 then
    let m1 := { m with totalInsertions := m.totalInsertions + inserted }
    if 40 < inserted ∨ '\n' ∈ text then
      ({ m1 with aiInsertions := m1.aiInsertions + 1 }, some EventType.aiAccept)
    else
      (m1, some EventType.insert)
  else if 0 < removed ∧ inserted = 0 then
    ({ m with totalDeletions := m.totalDeletions + removed,
              undoCount := m.undoCount + 1 }, some EventType.delete)
  else if 0 < removed ∧ 0 < inserted then
    let m1 := { m with totalInsertions := m.totalInsertions + inserted,
                       totalDeletions := m.totalDeletions + removed }
    if 40 < inserted ∨ '\n' ∈ text then
      ({ m1 with aiInsertions := m1.aiInsertions + 1 }, some EventType.aiReplace)
    else
      (m1, some EventType.replace)
  else
    (m, none)

/-- The lazy pruning loop of the windowed variant (README lines 191–192):
`while (activity.length && activity[0].ts < cutoff) activity.shift()`
with `cutoff = now - 5*60*1000`. -/
def pruneActivity (now : ℤ) (acts : List ActivityEntry) : List ActivityEntry :=
  acts.dropWhile (fun a => decide (a.ts < now - 300000))

/-- State touched by one sub-change of the windowed variant's handler:
the `activity` sliding window and the metrics. -/
structure WinState where
  activity : List ActivityEntry
  metrics : Metrics
deriving DecidableEq, Repr

/-- One iteration of the windowed variant's handler loop (README lines
185–216): push an ActivityEntry whenever `inserted > 0`, prune the window,
then classify exactly as `applyChange` does. -/
def applyChangeWindowed (st : WinState) (text : List Char) (rangeLength : ℕ)
    (now : ℤ) : WinState × Option EventType :=
  let inserted := text.length
  let acts1 := if 0 < inserted then st.activity ++ [⟨now, inserted⟩] else st.activity
  let acts2 := pruneActivity now acts1
  let step := applyChange st.metrics text rangeLength
  (⟨acts2, step.1⟩, step.2)

/-- The history append of `updateStatus` (src/extension.js lines 132–133;
README variant lines 174–175): `history.push(sample)` followed by
`if (history.length > 20000) history.shift()`. -/
def pushHistory (h : List FlowSample) (s : FlowSample) : List FlowSample :=
  let h2 := h ++ [s]
  if 20000 < h2.length then h2.tail else h2

/-- State read and written by `updateStatus` of src/extension.js:
the throttle timestamp, the metrics, the bounded history, the score shown
in the status bar, and a count of nudge prompts shown so far. -/
structure ExtState where
  lastUpdate : ℤ
  metrics : Metrics
  history : List FlowSample
  statusFlow : ℤ
  nudgeCount : ℕ
deriving DecidableEq, Repr

/-- `updateStatus` of src/extension.js (lines 109–161): throttled to at
most one evaluation per second; computes the flow, updates
`consecutiveLow` (thresholds 70 and 40 in this variant), appends to the
bounded history, and fires a nudge when assist mode is on and
`consecutiveLow` reached 5. -/
def updateStatus (st : ExtState) (assistMode : Bool) (now : ℤ) (r : ℚ) :
    ExtState :=
  if now - st.lastUpdate < 1000 then st
  else
    let flow := computeFlowSimple st.metrics now r
    let cl : ℕ :=
      if 70 ≤ flow then 0 else if 40 ≤ flow then 0
      else st.metrics.consecutiveLow + 1
    let hist := pushHistory st.history ⟨now, flow⟩
    if assistMode = true ∧ 5 ≤ cl then
      { lastUpdate := now, metrics := { st.metrics with consecutiveLow := 0 },
        history := hist, statusFlow := flow, nudgeCount := st.nudgeCount + 1 }
    else
      { lastUpdate := now, metrics := { st.metrics with consecutiveLow := cl },
        history := hist, statusFlow := flow, nudgeCount := st.nudgeCount }

/-- The `consecutiveLow` update of the windowed variant's `updateStatus`
(README lines 141–150): thresholds 70 and 45. -/
def lowStep (cl : ℕ) (flow : ℤ) : ℕ :=
  if 70 ≤ flow then 0 else if 45 ≤ flow then 0 else cl + 1

/-- One scoring tick of the windowed variant's nudge logic (README lines
141–171): update `consecutiveLow` from the flow score, then, when assist
mode is on and the counter reached 5, reset it and fire a nudge.  Returns
the new counter and whether a nudge fired. -/
def nudgeStep (assist : Bool) (cl : ℕ) (flow : ℤ) : ℕ × Bool :=
  if assist = true ∧ 5 ≤ lowStep cl flow then (0, true)
  else (lowStep cl flow, false)

/-- Fold `nudgeStep` over a sequence of flow scores, one per tick,
returning the final `consecutiveLow` and the number of nudges fired. -/
def runNudge (assist : Bool) : ℕ → List ℤ → ℕ × ℕ
  | cl, [] => (cl, 0)
  | cl, f :: fs =>
    let s := nudgeStep assist cl f
    let rest := runNudge assist s.1 fs
    (rest.1, (if s.2 = true then 1 else 0) + rest.2)

/-- The three options of the nudge prompt (src/extension.js lines
138–144): take a break, request a hint, or ignore. -/
inductive NudgeChoice where
  | takeBreak
  | requestHint
  | ignore
deriving DecidableEq, Repr

/-- The option list passed to the nudge information message. -/
def nudgeChoices : List NudgeChoice :=
  [NudgeChoice.takeBreak, NudgeChoice.requestHint, NudgeChoice.ignore]

/-- The metrics state of the end-to-end scoring test of the spec:
`{totalInsertions:100, aiInsertions:80, undoCount:5, lastChangeTimestamp:now}`,
all other counters zero. -/
def mC3 (now : ℤ) : Metrics :=
  { lastChangeTs := now, totalInsertions := 100, totalDeletions := 0,
    aiInsertions := 80, aiRejections := 0, undoCount := 5, consecutiveLow := 0 }

/-- An all-zero metrics state, used as a concrete input in witnesses. -/
def mZero : Metrics :=
  { lastChangeTs := 0, totalInsertions := 0, totalDeletions := 0,
    aiInsertions := 0, aiRejections := 0, undoCount := 0, consecutiveLow := 0 }

/-- C1: for every metrics state, activity window, current time and random
sample, both scorers return a score in the closed interval [0,100]. -/
theorem c1_score_in_range (m : Metrics) (act : List ActivityEntry)
    (now : ℤ) (r : ℚ) :
    (0 ≤ computeFlowSimple m now r ∧ computeFlowSimple m now r ≤ 100) ∧
    (0 ≤ computeFlowWindowed m act now r ∧
      computeFlowWindowed m act now r ≤ 100) :=
  ⟨⟨le_max_left 0 _, max_le (by norm_num) (min_le_left 100 _)⟩,
   ⟨le_max_left 0 _, max_le (by norm_num) (min_le_left 100 _)⟩⟩

/-- C2: a pure insertion (`inserted > 0`, `removed = 0`) is tagged
`ai.accept` with `aiInsertions` incremented exactly when the inserted text
is longer than 40 characters or contains a newline, and `insert` with
`aiInsertions` unchanged otherwise. -/
theorem c2_insertion_classification (m : Metrics) (text : List Char)
    (hIns : 0 < text.length) :
    ((40 < text.length ∨ '\n' ∈ text) →
      (applyChange m text 0).2 = some EventType.aiAccept ∧
      (applyChange m text 0).1.aiInsertions = m.aiInsertions + 1) ∧
    ((text.length ≤ 40 ∧ '\n' ∉ text) →
      (applyChange m text 0).2 = some EventType.insert ∧
      (applyChange m text 0).1.aiInsertions = m.aiInsertions) := by
  constructor
  · intro h
    simp only [applyChange]
    rw [if_pos ⟨hIns, trivial⟩, if_pos h]
    exact ⟨rfl, rfl⟩
  · intro h
    have hn : ¬ (40 < text.length ∨ '\n' ∈ text) := by
      push_neg
      exact ⟨by omega, h.2⟩
    simp only [applyChange]
    rw [if_pos ⟨hIns, trivial⟩, if_neg hn]
    exact ⟨rfl, rfl⟩

/-- C2 witness: an insertion of 41 characters without newline is tagged
`ai.accept`, one of 10 characters is tagged `insert`, and a 3-character
insertion containing a newline is tagged `ai.accept`. -/
theorem c2_insertion_classification_witness :
    (applyChange mZero (List.replicate 41 'a') 0).2 = some EventType.aiAccept ∧
    (applyChange mZero (List.replicate 10 'a') 0).2 = some EventType.insert ∧
    (applyChange mZero ['a', '\n', 'b'] 0).2 = some EventType.aiAccept :=
  ⟨((c2_insertion_classification mZero (List.replicate 41 'a')
      (by decide)).1 (by decide)).1,
   ((c2_insertion_classification mZero (List.replicate 10 'a')
      (by decide)).2 (by decide)).1,
   ((c2_insertion_classification mZero ['a', '\n', 'b']
      (by decide)).1 (by decide)).1⟩

/-- C10: the windowed scorer never reads `aiRejections`, so two metrics
states differing only in that counter produce equal scores for the same
activity window, time and pinned random sample. -/
theorem c10_windowed_ignores_aiRejections (m : Metrics)
    (act : List ActivityEntry) (now : ℤ) (r : ℚ) (x : ℕ) :
    computeFlowWindowed { m with aiRejections := x } act now r =
      computeFlowWindowed m act now r := rfl

/-- C3 counterexample: on the end-to-end input of the spec (metrics
`mC3`, empty activity window, `now = 0`) and with the jitter pinned to 0
(random sample 1/2 makes the jitter term 0), the windowed scorer returns
74, not 54 as claimed: the empty window makes the average gap 0, which is
below 10 s, so the rhythm bonus is the full 20. -/
theorem c3_counterexample :
    jitterWindowed (1/2) = 0 ∧
    computeFlowWindowed (mC3 0) [] 0 (1/2) = 74 ∧
    computeFlowWindowed (mC3 0) [] 0 (1/2) ≠ 54 := by
  refine ⟨by norm_num [jitterWindowed], ?_, ?_⟩ <;>
    simp only [computeFlowWindowed, mC3, gapsOf, keystrokeSum, jsOr,
      jitterWindowed, jsRound] <;>
    norm_num

/-- C3 amended: with jitter pinned to 0, metrics
`{totalInsertions:100, aiInsertions:80, undoCount:5, lastChangeTimestamp:now}`
and an empty activity window at time `now`, the windowed flow score is
exactly 74: the outcome term is 30 + 0.8*30 − 0.05*10 = 53.5, the
keystroke term and idle penalty are 0, but the rhythm bonus is 20 (the
empty gap list yields average gap 0 < 10 s), and 73.5 rounds half-up
to 74. -/
theorem c3_amended (now : ℤ) :
    computeFlowWindowed (mC3 now) [] now (1/2) = 74 := by
  by_cases h : now = 0
  · subst h
    simp only [computeFlowWindowed, mC3, gapsOf, keystrokeSum, jsOr,
      jitterWindowed, jsRound]
    norm_num
  · simp only [computeFlowWindowed, mC3, gapsOf, keystrokeSum, jsOr,
      jitterWindowed, jsRound, if_neg h]
    norm_num

/-- C4 counterexample: a pure deletion of 2 characters increments
`undoCount` by 1, not by the removed length 2 as claimed. -/
theorem c4_counterexample :
    (applyChange mZero [] 2).2 = some EventType.delete ∧
    (applyChange mZero [] 2).1.undoCount = mZero.undoCount + 1 ∧
    (applyChange mZero [] 2).1.undoCount ≠ mZero.undoCount + 2 := by
  decide

/-- C4 amended: a pure deletion (`removed > 0`, `inserted = 0`) is tagged
`delete`, increments `undoCount` by exactly 1 (regardless of the removed
length), and adds the removed length to `totalDeletions`. -/
theorem c4_deletion (m : Metrics) (text : List Char) (rl : ℕ)
    (h0 : text.length = 0) (h1 : 0 < rl) :
    (applyChange m text rl).2 = some EventType.delete ∧
    (applyChange m text rl).1.undoCount = m.undoCount + 1 ∧
    (applyChange m text rl).1.totalDeletions = m.totalDeletions + rl := by
  have ht : text = [] := List.eq_nil_of_length_eq_zero h0
  subst ht
  simp only [applyChange, List.length_nil]
  rw [if_neg (by omega), if_pos ⟨h1, trivial⟩]
  exact ⟨rfl, rfl, rfl⟩

/-- C4 witness: the amended deletion rule evaluated on a concrete
3-character deletion from the all-zero metrics state. -/
theorem c4_deletion_witness :
    (applyChange mZero [] 3).2 = some EventType.delete ∧
    (applyChange mZero [] 3).1.undoCount = mZero.undoCount + 1 ∧
    (applyChange mZero [] 3).1.totalDeletions = mZero.totalDeletions + 3 :=
  c4_deletion mZero [] 3 (by decide) (by decide)

/-- A flow score below 45 increments the windowed variant's
`consecutiveLow` counter. -/
theorem lowStep_of_lt (cl : ℕ) (f : ℤ) (h : f < 45) : lowStep cl f = cl + 1 := by
  unfold lowStep
  rw [if_neg (by omega), if_neg (by omega)]

/-- A flow score of 45 or above resets the windowed variant's
`consecutiveLow` counter. -/
theorem lowStep_of_ge (cl : ℕ) (f : ℤ) (h : 45 ≤ f) : lowStep cl f = 0 := by
  unfold lowStep
  by_cases h7 : 70 ≤ f
  · rw [if_pos h7]
  · rw [if_neg h7, if_pos h]

/-- C5: with assist mode on and starting from `consecutiveLow = 0`, five
consecutive ticks with scores below 45 leave the counter at 1, 2, 3, 4
without a nudge on the first four ticks, fire exactly one nudge on the
fifth tick while resetting the counter to 0, and over the whole run
exactly one nudge fires; any tick with score 45 or above resets the
counter to 0; the nudge offers exactly three choices. -/
theorem c5_nudge_after_five_low (f1 f2 f3 f4 f5 : ℤ)
    (h1 : f1 < 45) (h2 : f2 < 45) (h3 : f3 < 45) (h4 : f4 < 45)
    (h5 : f5 < 45) :
    nudgeStep true 0 f1 = (1, false) ∧
    nudgeStep true 1 f2 = (2, false) ∧
    nudgeStep true 2 f3 = (3, false) ∧
    nudgeStep true 3 f4 = (4, false) ∧
    nudgeStep true 4 f5 = (0, true) ∧
    runNudge true 0 [f1, f2, f3, f4, f5] = (0, 1) ∧
    (∀ (cl : ℕ) (f : ℤ), 45 ≤ f → (nudgeStep true cl f).1 = 0) ∧
    nudgeChoices.length = 3 := by
  have s1 : nudgeStep true 0 f1 = (1, false) := by
    unfold nudgeStep
    rw [lowStep_of_lt 0 f1 h1, if_neg (by omega)]
  have s2 : nudgeStep true 1 f2 = (2, false) := by
    unfold nudgeStep
    rw [lowStep_of_lt 1 f2 h2, if_neg (by omega)]
  have s3 : nudgeStep true 2 f3 = (3, false) := by
    unfold nudgeStep
    rw [lowStep_of_lt 2 f3 h3, if_neg (by omega)]
  have s4 : nudgeStep true 3 f4 = (4, false) := by
    unfold nudgeStep
    rw [lowStep_of_lt 3 f4 h4, if_neg (by omega)]
  have s5 : nudgeStep true 4 f5 = (0, true) := by
    unfold nudgeStep
    rw [lowStep_of_lt 4 f5 h5, if_pos ⟨rfl, by omega⟩]
  refine ⟨s1, s2, s3, s4, s5, ?_, ?_, rfl⟩
  · simp [runNudge, s1, s2, s3, s4, s5]
  · intro cl f hf
    unfold nudgeStep
    rw [lowStep_of_ge cl f hf]
    by_cases hc : (true = true ∧ 5 ≤ (0 : ℕ))
    · rw [if_pos hc]
    · rw [if_neg hc]

/-- C5 witness: five consecutive ticks at score 30 with assist mode on,
starting from a reset counter, fire exactly one nudge; the fifth tick is
the one that fires it and resets the counter. -/
theorem c5_nudge_after_five_low_witness :
    runNudge true 0 [30, 30, 30, 30, 30] = (0, 1) ∧
    nudgeStep true 4 30 = (0, true) ∧
    nudgeStep true 0 30 = (1, false) :=
  ⟨(c5_nudge_after_five_low 30 30 30 30 30 (by decide) (by decide)
      (by decide) (by decide) (by decide)).2.2.2.2.2.1,
   (c5_nudge_after_five_low 30 30 30 30 30 (by decide) (by decide)
      (by decide) (by decide) (by decide)).2.2.2.2.1,
   (c5_nudge_after_five_low 30 30 30 30 30 (by decide) (by decide)
      (by decide) (by decide) (by decide)).1⟩

/-- Appending to a history at most at the cap keeps it at most at the
cap. -/
theorem pushHistory_length_le (h : List FlowSample) (s : FlowSample)
    (hle : h.length ≤ 20000) : (pushHistory h s).length ≤ 20000 := by
  unfold pushHistory
  by_cases hc : 20000 < (h ++ [s]).length
  · rw [if_pos hc]
    simp only [List.length_tail, List.length_append, List.length_singleton]
    omega
  · rw [if_neg hc]
    omega

/-- C6: appending a FlowSample to a history of length exactly 20000
evicts the oldest sample and keeps the length at exactly 20000, and a
scoring tick never grows a history beyond 20000 entries. -/
theorem c6_history_bounded :
    (∀ (h : List FlowSample) (s : FlowSample), h.length = 20000 →
      pushHistory h s = h.tail ++ [s] ∧ (pushHistory h s).length = 20000) ∧
    (∀ (st : ExtState) (a : Bool) (now : ℤ) (r : ℚ),
      st.history.length ≤ 20000 →
      (updateStatus st a now r).history.length ≤ 20000) := by
  constructor
  · intro h s hl
    match h with
    | [] => simp at hl
    | a :: t =>
      have ht : t.length = 19999 := by
        simpa using hl
      have hc : 20000 < ((a :: t) ++ [s]).length := by
        simp [ht]
      unfold pushHistory
      rw [if_pos hc]
      refine ⟨rfl, ?_⟩
      simp [ht]
  · intro st a now r hle
    unfold updateStatus
    by_cases hth : now - st.lastUpdate < 1000
    · rw [if_pos hth]
      exact hle
    · rw [if_neg hth]
      by_cases hn : (a = true ∧ 5 ≤
          (if 70 ≤ computeFlowSimple st.metrics now r then 0
           else if 40 ≤ computeFlowSimple st.metrics now r then 0
           else st.metrics.consecutiveLow + 1))
      · rw [if_pos hn]
        exact pushHistory_length_le st.history _ hle
      · rw [if_neg hn]
        exact pushHistory_length_le st.history _ hle

/-- C6 witness: pushing one more sample onto a history of exactly 20000
identical samples keeps the length at 20000 and drops the head. -/
theorem c6_history_bounded_witness :
    pushHistory (List.replicate 20000 (FlowSample.mk 0 0)) (FlowSample.mk 1 2) =
      (List.replicate 20000 (FlowSample.mk 0 0)).tail ++ [FlowSample.mk 1 2] ∧
    (pushHistory (List.replicate 20000 (FlowSample.mk 0 0))
      (FlowSample.mk 1 2)).length = 20000 :=
  c6_history_bounded.1 (List.replicate 20000 (FlowSample.mk 0 0))
    (FlowSample.mk 1 2) (List.length_replicate 20000 (FlowSample.mk 0 0))

/-- C7 counterexample: in the simplified scorer the jitter at random
sample 0 (a legal value of `Math.random()`) is −5, outside the claimed
interval [−3, 3]. -/
theorem c7_counterexample :
    jitterSimple 0 = -5 ∧ ¬ (-3 ≤ jitterSimple 0) := by
  constructor
  · norm_num [jitterSimple]
  · norm_num [jitterSimple]

/-- C7 amended: for every random sample in [0,1), the simplified scorer's
jitter is an integer in [−5, 4] and the windowed scorer's jitter is an
integer in [−3, 2]; neither noise distribution is symmetric about 0 (each
is uniform on an integer range centred at −1/2). -/
theorem c7_jitter_bounds (r : ℚ) (h0 : 0 ≤ r) (h1 : r < 1) :
    (-5 ≤ jitterSimple r ∧ jitterSimple r ≤ 4) ∧
    (-3 ≤ jitterWindowed r ∧ jitterWindowed r ≤ 2) := by
  refine ⟨⟨?_, ?_⟩, ⟨?_, ?_⟩⟩
  · rw [jitterSimple, Int.le_floor]
    push_cast
    linarith
  · have h5 : jitterSimple r < 5 := by
      rw [jitterSimple, Int.floor_lt]
      push_cast
      linarith
    omega
  · rw [jitterWindowed, Int.le_floor]
    push_cast
    linarith
  · have h3 : jitterWindowed r < 3 := by
      rw [jitterWindowed, Int.floor_lt]
      push_cast
      linarith
    omega

/-- C7 witness: the amended jitter bounds evaluated at the random
sample 0. -/
theorem c7_jitter_bounds_witness :
    (-5 ≤ jitterSimple 0 ∧ jitterSimple 0 ≤ 4) ∧
    (-3 ≤ jitterWindowed 0 ∧ jitterWindowed 0 ≤ 2) :=
  c7_jitter_bounds 0 (le_refl 0) zero_lt_one

/-- Dropping a prefix by a predicate that is false on the last element
keeps that last element last. -/
theorem getLast?_dropWhile_concat {α : Type} (p : α → Bool) (l : List α)
    (x : α) (hx : p x = false) :
    ((l ++ [x]).dropWhile p).getLast? = some x := by
  induction l with
  | nil => simp [List.dropWhile, hx]
  | cons a t ih =>
    by_cases h : p a
    · rw [List.cons_append, List.dropWhile_cons_of_pos h]
      exact ih
    · rw [List.cons_append, List.dropWhile_cons_of_neg h, ← List.cons_append,
        List.getLast?_concat]

/-- C8 counterexample: in the windowed variant a replace sub-change
(5 characters inserted, 3 removed) does append an ActivityEntry, contrary
to the claim that only pure insertions do. -/
theorem c8_counterexample :
    (applyChangeWindowed (WinState.mk [] mZero)
        ['a', 'b', 'c', 'd', 'e'] 3 0).2 = some EventType.replace ∧
    (applyChangeWindowed (WinState.mk [] mZero)
        ['a', 'b', 'c', 'd', 'e'] 3 0).1.activity =
      [ActivityEntry.mk 0 5] := by
  decide

/-- C8 amended: the windowed variant appends an ActivityEntry for every
sub-change with `inserted > 0` — insertions and replaces alike — and the
appended entry `{ts: now, size: inserted}` survives the lazy pruning as
the last window entry; a sub-change with no inserted text appends nothing
and only prunes the window. -/
theorem c8_activity_append (st : WinState) (text : List Char)
    (rl : ℕ) (now : ℤ) :
    (0 < text.length →
      (applyChangeWindowed st text rl now).1.activity.getLast? =
        some (ActivityEntry.mk now text.length)) ∧
    (text.length = 0 →
      (applyChangeWindowed st text rl now).1.activity =
        pruneActivity now st.activity) := by
  constructor
  · intro h
    show (pruneActivity now
        (if 0 < text.length then st.activity ++ [⟨now, text.length⟩]
         else st.activity)).getLast? = _
    rw [if_pos h]
    exact getLast?_dropWhile_concat _ st.activity _ (by simp)
  · intro h
    show pruneActivity now
        (if 0 < text.length then st.activity ++ [⟨now, text.length⟩]
         else st.activity) = _
    rw [if_neg (by omega)]

/-- C8 witness: the amended append rule evaluated on a concrete replace
sub-change (one character inserted, two removed) from an empty window. -/
theorem c8_activity_append_witness :
    (applyChangeWindowed (WinState.mk [] mZero) ['a'] 2 5).1.activity.getLast?
      = some (ActivityEntry.mk 5 1) :=
  (c8_activity_append (WinState.mk [] mZero) ['a'] 2 5).1 (by decide)

/-- A call to `updateStatus` within one second of the previous evaluation
is throttled: it returns the state unchanged. -/
theorem updateStatus_throttled (st : ExtState) (a : Bool) (now : ℤ) (r : ℚ)
    (h : now - st.lastUpdate < 1000) : updateStatus st a now r = st := by
  unfold updateStatus
  rw [if_pos h]

/-- An unthrottled `updateStatus` call records its evaluation time. -/
theorem updateStatus_lastUpdate (st : ExtState) (a : Bool) (now : ℤ) (r : ℚ)
    (h : 1000 ≤ now - st.lastUpdate) :
    (updateStatus st a now r).lastUpdate = now := by
  unfold updateStatus
  rw [if_neg (by omega)]
  by_cases hn : (a = true ∧ 5 ≤
      (if 70 ≤ computeFlowSimple st.metrics now r then 0
       else if 40 ≤ computeFlowSimple st.metrics now r then 0
       else st.metrics.consecutiveLow + 1))
  · rw [if_pos hn]
  · rw [if_neg hn]

/-- C9: scoring is coalesced to at most one evaluation per second — a
second `updateStatus` call within the same one-second interval, with no
new input in between, leaves the whole state (including the displayed
score) unchanged, whatever random sample it draws. -/
theorem c9_tick_coalesced (st : ExtState) (a1 a2 : Bool) (now1 now2 : ℤ)
    (r1 r2 : ℚ) (h1 : 1000 ≤ now1 - st.lastUpdate)
    (h2 : now2 - now1 < 1000) :
    updateStatus (updateStatus st a1 now1 r1) a2 now2 r2 =
      updateStatus st a1 now1 r1 ∧
    (updateStatus (updateStatus st a1 now1 r1) a2 now2 r2).statusFlow =
      (updateStatus st a1 now1 r1).statusFlow := by
  have e : updateStatus (updateStatus st a1 now1 r1) a2 now2 r2 =
      updateStatus st a1 now1 r1 := by
    apply updateStatus_throttled
    rw [updateStatus_lastUpdate st a1 now1 r1 h1]
    omega
  exact ⟨e, by rw [e]⟩

/-- C9 witness: the coalescing theorem evaluated at a concrete state,
with the first evaluation at t = 2000 ms and the second at t = 2500 ms. -/
theorem c9_tick_coalesced_witness :
    updateStatus (updateStatus (ExtState.mk 0 mZero [] 0 0) true 2000 0)
        false 2500 0 =
      updateStatus (ExtState.mk 0 mZero [] 0 0) true 2000 0 :=
  (c9_tick_coalesced (ExtState.mk 0 mZero [] 0 0) true false 2000 2500 0 0
    (by decide) (by decide)).1

end VibeFlow
